import Mathlib

/-
Shallow embedding of ccsdspy's src/ccsdspy/interface.py (classes PacketField
and FixedLength, helper _get_fields_csv_file) and theorems checking the
natural-language specification against it.

Modelling conventions:
- Python exceptions are modelled with Except String: a construction or loader
  that raises is a value of the form Except.error msg, a normal return is
  Except.ok v.
- Python's isinstance type checks in PacketField.__init__ are enforced by the
  Lean types of the arguments (String, Int, Option Int) and are therefore not
  re-modelled as runtime checks.
- Python None for bit_offset is Option.none.
- Python list identity and in-place mutation (needed for aliasing claims) are
  modelled with an explicit store mapping numeric object ids to list contents.
-/

namespace Ccsdspy

/-- Model of one PacketField object after a successful construction: the five
attributes stored by PacketField.__init__ (lines 59-63 of interface.py). -/
structure PacketField where
  name : String
  data_type : String
  bit_length : Int
  bit_offset : Option Int
  byte_order : String
deriving DecidableEq, Repr

/-- Tuple of valid data types, interface.py line 51. -/
def valid_data_types : List String := ["uint", "int", "float", "str", "fill"]

/-- Tuple of valid byte orders, interface.py line 55. -/
def valid_byte_orders : List String := ["big", "little"]

/-- Model of PacketField.__init__ (interface.py lines 16-63).  The isinstance
checks of lines 42-49 are enforced by the Lean argument types; the remaining
runtime validation is the data_type membership check (lines 51-53) and the
byte_order membership check (lines 55-57), in that order.  No other value is
validated; on success the five arguments are stored verbatim. -/
def PacketField.init (n dt : String) (bl : Int) (bo : Option Int)
    (ord : String) : Except String PacketField :=
  if valid_data_types.contains dt then
    if valid_byte_orders.contains ord then
      Except.ok ⟨n, dt, bl, bo, ord⟩
    else
      Except.error "byte_order must be one of ('big', 'little')"
  else
    Except.error "data_type must be one of ('uint', 'int', 'float', 'str', 'fill')"

/-- Values yielded by PacketField.__iter__: Python strings, ints, or None. -/
inductive PyVal where
  | pyStr (s : String)
  | pyInt (n : Int)
  | pyNone
deriving DecidableEq, Repr

/-- Model of PacketField.__iter__ (interface.py lines 72-73): the list of
key-value pairs the iterator yields, in source order. -/
def PacketField.iterPairs (f : PacketField) : List (String × PyVal) :=
  [("name", PyVal.pyStr f.name),
   ("dataType", PyVal.pyStr f.data_type),
   ("bitLength", PyVal.pyInt f.bit_length),
   ("bitOffset", match f.bit_offset with
                 | some n => PyVal.pyInt n
                 | none => PyVal.pyNone),
   ("byteOrder", PyVal.pyStr f.byte_order)]

/-- Model of a FixedLength instance as a value: the contents of the list its
_fields attribute refers to. -/
structure FixedLength where
  fields : List PacketField
deriving DecidableEq, Repr

/-- The seven primary-header PacketFields built inline in FixedLength.load
(interface.py lines 135-141), in source order. -/
def primaryHeaderFields : List PacketField :=
  [⟨"CCSDS_VERSION_NUMBER", "uint", 3, some 0, "big"⟩,
   ⟨"CCSDS_PACKET_TYPE", "uint", 1, some 3, "big"⟩,
   ⟨"CCSDS_SECONDARY_FLAG", "uint", 1, some 4, "big"⟩,
   ⟨"CCSDS_APID", "uint", 11, some 5, "big"⟩,
   ⟨"CCSDS_SEQUENCE_FLAG", "uint", 2, some 16, "big"⟩,
   ⟨"CCSDS_SEQUENCE_COUNT", "uint", 14, some 18, "big"⟩,
   ⟨"CCSDS_PACKET_LENGTH", "uint", 16, some 32, "big"⟩]

/-- Model of the field-list effect of FixedLength.load (interface.py lines
114-145).  When include_primary_header is true, line 135 reassigns
self._fields to the seven header fields prepended to the old value; line 144
then passes self._fields to the decoder.  The result is the pair (instance
state after the call, field list handed to _decode_fixed_length). -/
def FixedLength.load (p : FixedLength) (include_primary_header : Bool) :
    FixedLength × List PacketField :=
  if include_primary_header then
    (⟨primaryHeaderFields ++ p.fields⟩, primaryHeaderFields ++ p.fields)
  else
    (p, p.fields)

/-- The required CSV columns, interface.py line 162. -/
def req_columns : List String := ["name", "data_type", "bit_length"]

/-- Model of csv.DictReader's per-row dictionary lookup: the header row and a
data row are zipped positionally and the value under a column name is looked
up; none models a KeyError / a missing cell. -/
def rowGet (headers row : List String) (col : String) : Option String :=
  (headers.zip row).lookup col

instance exceptDecEq {eTy aTy : Type} [DecidableEq eTy] [DecidableEq aTy] :
    DecidableEq (Except eTy aTy) := fun a b =>
  match a, b with
  | Except.error e1, Except.error e2 =>
    if h : e1 = e2 then isTrue (by rw [h])
    else isFalse (by intro hh; cases hh; exact h rfl)
  | Except.error _, Except.ok _ => isFalse (by intro hh; cases hh)
  | Except.ok _, Except.error _ => isFalse (by intro hh; cases hh)
  | Except.ok a1, Except.ok a2 =>
    if h : a1 = a2 then isTrue (by rw [h])
    else isFalse (by intro hh; cases hh; exact h rfl)

/-- Accumulator pass of the decimal-digit parser. -/
def digitsToNatAux : List Char → Nat → Option Nat
  | [], acc => some acc
  | c :: cs, acc =>
    if c.isDigit then digitsToNatAux cs (acc * 10 + (c.toNat - 48)) else none

/-- Value of a non-empty all-digit character list, none otherwise. -/
def digitsToNat (cs : List Char) : Option Nat :=
  match cs with
  | [] => none
  | _ => digitsToNatAux cs 0

/-- Model of Python's int(s) on a stripped string: an optional sign followed
by decimal digits; none models the ValueError on anything else. -/
def parseIntChars (cs : List Char) : Option Int :=
  match cs with
  | '-' :: rest => (digitsToNat rest).map (fun n => -(n : Int))
  | '+' :: rest => (digitsToNat rest).map (fun n => (n : Int))
  | _ => (digitsToNat cs).map (fun n => (n : Int))

/-- Model of Python's int() applied to a CSV cell: Except.error models both
the KeyError on a missing cell and the ValueError on a non-integer string. -/
def pyInt? (s : Option String) : Except String Int :=
  match s with
  | none => Except.error "KeyError"
  | some str =>
    match parseIntChars str.data with
    | some n => Except.ok n
    | none => Except.error "invalid literal for int()"

/-- Model of a missing-cell lookup raising: row[col] as an Except. -/
def pyStr? (s : Option String) : Except String String :=
  match s with
  | none => Except.error "KeyError"
  | some str => Except.ok str

/-- Model of one iteration of the row loop of _get_fields_csv_file
(interface.py lines 170-175).  When bit_offset is not among the headers the
3-column construction of line 172 runs (bit_offset None, byte_order the
default big); when it is, the 4-column construction of line 175 runs.  The
two source-level if statements have disjoint exhaustive conditions that
depend only on the headers, so exactly one runs per row. -/
def fieldFromRow (headers row : List String) : Except String PacketField :=
  if headers.contains "bit_offset" then
    pyStr? (rowGet headers row "name") >>= fun n =>
    pyStr? (rowGet headers row "data_type") >>= fun dt =>
    pyInt? (rowGet headers row "bit_length") >>= fun bl =>
    pyInt? (rowGet headers row "bit_offset") >>= fun bo =>
    PacketField.init n dt bl (some bo) "big"
  else
    pyStr? (rowGet headers row "name") >>= fun n =>
    pyStr? (rowGet headers row "data_type") >>= fun dt =>
    pyInt? (rowGet headers row "bit_length") >>= fun bl =>
    PacketField.init n dt bl none "big"

/-- Model of the row loop of _get_fields_csv_file: fields are appended one per
row in row order; a raise inside any iteration aborts the whole call. -/
def fieldsFromRows (headers : List String) :
    List (List String) → Except String (List PacketField)
  | [] => Except.ok []
  | r :: rs =>
    fieldFromRow headers r >>= fun f =>
    fieldsFromRows headers rs >>= fun fs =>
    Except.ok (f :: fs)

/-- Model of _get_fields_csv_file (interface.py lines 148-177): the file is
presented as its parsed header row plus data rows.  Lines 167-169 check that
every required column is among the headers before any row is read; then the
row loop builds the field list. -/
def _get_fields_csv_file (headers : List String) (rows : List (List String)) :
    Except String (List PacketField) :=
  if req_columns.all (fun c => headers.contains c) then
    fieldsFromRows headers rows
  else
    Except.error "Minimum required columns are ['name', 'data_type', 'bit_length']."

/-- Last index of character c in p, modelling CPython str.rfind as used by
posixpath's splitext helper; none when c does not occur. -/
def rfindChar (p : List Char) (c : Char) : Option Nat :=
  match p.reverse.findIdx? (fun x => x = c) with
  | none => none
  | some j => some (p.length - 1 - j)

/-- Model of os.path.splitext on a POSIX path (genericpath._splitext with
sep = '/', no altsep, extsep = '.'): split at the last dot provided it lies
after the last separator and the basename has at least one non-dot character
before it (leading dots of the basename never start an extension). -/
def splitext (p : List Char) : List Char × List Char :=
  let sepIdx : Option Nat := rfindChar p '/'
  match rfindChar p '.' with
  | none => (p, [])
  | some d =>
    let dotAfterSep : Bool :=
      match sepIdx with
      | none => true
      | some s2 => decide (s2 < d)
    let fIdx : Nat :=
      match sepIdx with
      | none => 0
      | some s2 => s2 + 1
    if dotAfterSep && ((p.drop fIdx).take (d - fIdx)).any (fun x => x != '.') then
      (p.take d, p.drop d)
    else
      (p, [])

/-- Model of FixedLength.from_file (interface.py lines 92-112).  The CSV
file's parsed content (headers and rows) is passed alongside the path; the
path's extension is tested against ".csv" (lines 106-110) and only on a match
is the content handed to _get_fields_csv_file, whose fields build the
instance. -/
def FixedLength.from_file (file : List Char) (headers : List String)
    (rows : List (List String)) : Except String FixedLength :=
  if (splitext file).2 = ".csv".data then
    match _get_fields_csv_file headers rows with
    | Except.ok fs => Except.ok ⟨fs⟩
    | Except.error e => Except.error e
  else
    Except.error "File type not supported."

/-- Store of Python list objects: numeric ids map to list contents; next is
the first unallocated id.  This models list identity so that aliasing and
in-place mutation are expressible. -/
structure PyListStore where
  contents : Nat → List PacketField
  next : Nat

/-- Allocation of a fresh list object holding xs. -/
def PyListStore.alloc (s : PyListStore) (xs : List PacketField) :
    PyListStore × Nat :=
  (⟨fun i => if i = s.next then xs else s.contents i, s.next + 1⟩, s.next)

/-- In-place mutation of the list object id (covers append, remove, replace:
any change of that object's contents). -/
def PyListStore.mutate (s : PyListStore) (id : Nat) (xs : List PacketField) :
    PyListStore :=
  ⟨fun i => if i = id then xs else s.contents i, s.next⟩

/-- A FixedLength instance in the store model: the id of the list object its
_fields attribute currently refers to. -/
structure FixedLengthRef where
  fieldsRef : Nat

/-- Model of FixedLength.__init__ (interface.py lines 83-90) at the object
level: self._fields = fields[:] — the slice allocates a new list object with
the same elements, and the instance stores a reference to that copy, not to
the caller's object. -/
def FixedLength.initRef (s : PyListStore) (fieldsId : Nat) :
    PyListStore × FixedLengthRef :=
  let r := s.alloc (s.contents fieldsId)
  (r.1, ⟨r.2⟩)

/-- Model of FixedLength.load at the object level (interface.py lines
114-145): with include_primary_header, line 135 builds a new list object
(header fields prepended to the current contents) and rebinds self._fields to
it; no existing list object is mutated in place.  Result: (store, instance
after the call, field list handed to the decoder). -/
def FixedLength.loadRef (s : PyListStore) (p : FixedLengthRef)
    (include_primary_header : Bool) :
    PyListStore × FixedLengthRef × List PacketField :=
  if include_primary_header then
    let fs := primaryHeaderFields ++ s.contents p.fieldsRef
    let r := s.alloc fs
    (r.1, ⟨r.2⟩, fs)
  else
    (s, p, s.contents p.fieldsRef)

/-
Helper lemmas shared by the claim theorems.
-/

/-- Inversion of a successful Except bind: both stages succeeded. -/
theorem except_bind_ok {α β : Type} (x : Except String α)
    (g : α → Except String β) (b : β) (h : x >>= g = Except.ok b) :
    ∃ a, x = Except.ok a ∧ g a = Except.ok b := by
  cases x with
  | error e => simp [Bind.bind, Except.bind] at h
  | ok a => exact ⟨a, rfl, by simpa [Bind.bind, Except.bind] using h⟩

/-- Characterisation of a successful PacketField construction: it succeeds
exactly when data_type and byte_order pass the membership checks, and then the
arguments are stored verbatim. -/
theorem PacketField.init_ok_iff (n dt : String) (bl : Int) (bo : Option Int)
    (ord : String) (f : PacketField) :
    PacketField.init n dt bl bo ord = Except.ok f ↔
      (dt ∈ valid_data_types ∧ ord ∈ valid_byte_orders ∧
       f = ⟨n, dt, bl, bo, ord⟩) := by
  unfold PacketField.init
  by_cases h1 : dt ∈ valid_data_types <;>
    by_cases h2 : ord ∈ valid_byte_orders <;>
    simp [h1, h2, eq_comm]

/-- A successful row construction carries a bit offset exactly when the header
row has a bit_offset column, and then the offset is the parsed cell of that
row. -/
theorem fieldFromRow_ok_offset (headers row : List String) (f : PacketField)
    (h : fieldFromRow headers row = Except.ok f) :
    (headers.contains "bit_offset" = true →
      ∃ m : Int, pyInt? (rowGet headers row "bit_offset") = Except.ok m ∧
        f.bit_offset = some m) ∧
    (headers.contains "bit_offset" = false → f.bit_offset = none) := by
  by_cases hc : headers.contains "bit_offset" = true
  · refine ⟨fun _ => ?_, fun hfalse => by rw [hc] at hfalse; cases hfalse⟩
    rw [fieldFromRow, if_pos hc] at h
    rcases except_bind_ok _ _ _ h with ⟨n, h1, h⟩
    rcases except_bind_ok _ _ _ h with ⟨dt, h2, h⟩
    rcases except_bind_ok _ _ _ h with ⟨bl, h3, h⟩
    rcases except_bind_ok _ _ _ h with ⟨bo, h4, h⟩
    rcases (PacketField.init_ok_iff _ _ _ _ _ _).mp h with ⟨_, _, rfl⟩
    exact ⟨bo, h4, rfl⟩
  · refine ⟨fun htrue => absurd htrue hc, fun _ => ?_⟩
    rw [fieldFromRow, if_neg hc] at h
    rcases except_bind_ok _ _ _ h with ⟨n, h1, h⟩
    rcases except_bind_ok _ _ _ h with ⟨dt, h2, h⟩
    rcases except_bind_ok _ _ _ h with ⟨bl, h3, h⟩
    rcases (PacketField.init_ok_iff _ _ _ _ _ _).mp h with ⟨_, _, rfl⟩
    rfl

/-- A successful run of the row loop produces one field per row. -/
theorem fieldsFromRows_length (headers : List String) :
    ∀ (rows : List (List String)) (fields : List PacketField),
      fieldsFromRows headers rows = Except.ok fields →
      fields.length = rows.length := by
  intro rows
  induction rows with
  | nil => intro fields h; simp [fieldsFromRows] at h; simp [← h]
  | cons r rs ih =>
    intro fields h
    rw [fieldsFromRows] at h
    rcases except_bind_ok _ _ _ h with ⟨f, h1, h⟩
    rcases except_bind_ok _ _ _ h with ⟨fs, h2, h⟩
    cases h
    simpa using ih _ h2

/-- In a successful run of the row loop, the i-th field is the successful
construction from the i-th row. -/
theorem fieldsFromRows_get (headers : List String) :
    ∀ (rows : List (List String)) (fields : List PacketField),
      fieldsFromRows headers rows = Except.ok fields →
      ∀ (i : Nat) (hi : i < rows.length) (hf : i < fields.length),
        fieldFromRow headers (rows.get ⟨i, hi⟩) = Except.ok (fields.get ⟨i, hf⟩) := by
  intro rows
  induction rows with
  | nil => intro fields h i hi; exact absurd hi (by simp)
  | cons r rs ih =>
    intro fields h i hi hf
    rw [fieldsFromRows] at h
    rcases except_bind_ok _ _ _ h with ⟨f, h1, h⟩
    rcases except_bind_ok _ _ _ h with ⟨fs, h2, h⟩
    cases h
    cases i with
    | zero => simpa using h1
    | succ j => exact ih _ h2 j (by simpa using hi) (by simpa using hf)

/-- Every field of a successful run of the row loop comes from a successful
row construction. -/
theorem fieldsFromRows_mem (headers : List String)
    (rows : List (List String)) (fields : List PacketField)
    (h : fieldsFromRows headers rows = Except.ok fields) :
    ∀ f ∈ fields, ∃ row ∈ rows, fieldFromRow headers row = Except.ok f := by
  intro f hf
  rcases List.mem_iff_get.mp hf with ⟨⟨i, hi⟩, rfl⟩
  have hlen := fieldsFromRows_length headers rows fields h
  have hi' : i < rows.length := by omega
  exact ⟨rows.get ⟨i, hi'⟩, List.get_mem _ _ _,
    fieldsFromRows_get headers rows fields h i hi' hi⟩

/-- The extension returned by splitext is always a suffix of the path. -/
theorem splitext_snd_suffix (p : List Char) : (splitext p).2 <:+ p := by
  unfold splitext
  cases hr : rfindChar p '.' with
  | none => exact ⟨p, by simp⟩
  | some d =>
    dsimp only
    split
    · exact ⟨p.take d, List.take_append_drop d p⟩
    · exact ⟨p, by simp⟩

/-- Bridge between the Bool-valued membership test used by the code and the
membership proposition. -/
theorem contains_true_iff (l : List String) (a : String) :
    l.contains a = true ↔ a ∈ l := by
  simp

/-
Claim theorems.
-/

/-- C1: calling load with include_primary_header true hands the decoder the
user fields preceded by exactly seven unsigned-integer fields with bit
lengths 3, 1, 1, 11, 2, 14, 16 and explicit absolute bit offsets 0, 3, 4, 5,
16, 18, 32, named after the primary-header items, in that order. -/
theorem C1_load_prepends_primary_header (p : FixedLength) :
    (p.load true).2 = primaryHeaderFields ++ p.fields ∧
    primaryHeaderFields.length = 7 ∧
    primaryHeaderFields.map PacketField.data_type = List.replicate 7 "uint" ∧
    primaryHeaderFields.map PacketField.bit_length = [3, 1, 1, 11, 2, 14, 16] ∧
    primaryHeaderFields.map PacketField.bit_offset =
      [some 0, some 3, some 4, some 5, some 16, some 18, some 32] ∧
    primaryHeaderFields.map PacketField.name =
      ["CCSDS_VERSION_NUMBER", "CCSDS_PACKET_TYPE", "CCSDS_SECONDARY_FLAG",
       "CCSDS_APID", "CCSDS_SEQUENCE_FLAG", "CCSDS_SEQUENCE_COUNT",
       "CCSDS_PACKET_LENGTH"] :=
  ⟨rfl, rfl, rfl, rfl, rfl, rfl⟩

/-- C2 is refuted by the code: load with include_primary_header true
reassigns self._fields, so the stored field list changes across the call and
a second identical call prepends the seven header fields a second time,
handing the decoder fourteen header fields. -/
theorem C2_load_mutates_stored_fields :
    ((FixedLength.mk []).load true).1.fields ≠ (FixedLength.mk []).fields ∧
    ((FixedLength.mk []).load true).1.fields = primaryHeaderFields ∧
    (((FixedLength.mk []).load true).1.load true).1.fields =
      primaryHeaderFields ++ primaryHeaderFields ∧
    (((FixedLength.mk []).load true).1.load true).2 ≠
      ((FixedLength.mk []).load true).2 :=
  ⟨by decide, rfl, rfl, by decide⟩

/-- C3 is refuted by the code: PacketField construction never value-checks
bit_length, so a zero bit_length, a negative bit_length, and a float with bit
length 16 are all accepted and return normally. -/
theorem C3_counterexample :
    PacketField.init "x" "uint" 0 none "big" =
      Except.ok ⟨"x", "uint", 0, none, "big"⟩ ∧
    PacketField.init "y" "int" (-3) none "big" =
      Except.ok ⟨"y", "int", -3, none, "big"⟩ ∧
    PacketField.init "z" "float" 16 none "big" =
      Except.ok ⟨"z", "float", 16, none, "big"⟩ :=
  ⟨rfl, rfl, rfl⟩

/-- C3 amended: construction validates only the data_type and byte_order
memberships; bit_length is stored verbatim with no value check, so zero and
negative bit lengths and float widths other than 32/64 are accepted whenever
data_type and byte_order are valid. -/
theorem C3_amended_no_bit_length_validation (n dt : String) (bl : Int)
    (bo : Option Int) (ord : String)
    (hdt : dt ∈ valid_data_types) (hord : ord ∈ valid_byte_orders) :
    PacketField.init n dt bl bo ord = Except.ok ⟨n, dt, bl, bo, ord⟩ :=
  (PacketField.init_ok_iff n dt bl bo ord _).mpr ⟨hdt, hord, rfl⟩

/-- Witness for the amended C3 at a concrete input: a float field of bit
length -7 is accepted. -/
theorem C3_amended_witness :
    ("float" ∈ valid_data_types ∧ "little" ∈ valid_byte_orders) ∧
    PacketField.init "w" "float" (-7) none "little" =
      Except.ok ⟨"w", "float", -7, none, "little"⟩ :=
  ⟨⟨by decide, by decide⟩,
   C3_amended_no_bit_length_validation "w" "float" (-7) none "little"
     (by decide) (by decide)⟩

/-- C4: a PacketField construction returns normally exactly when data_type
lies in the valid data-type set and byte_order lies in the valid byte-order
set, and the constructed field then stores those very values. -/
theorem C4_data_type_and_byte_order_validated (n dt : String) (bl : Int)
    (bo : Option Int) (ord : String) (f : PacketField) :
    PacketField.init n dt bl bo ord = Except.ok f ↔
      (dt ∈ valid_data_types ∧ ord ∈ valid_byte_orders ∧
       f = ⟨n, dt, bl, bo, ord⟩) :=
  PacketField.init_ok_iff n dt bl bo ord f

/-- C5: for any CSV content the loader accepts, either the header row has a
bit_offset column and then every returned field carries the integer offset
parsed from its own row, or it has none and then every returned field has no
bit offset. -/
theorem C5_bit_offsets_all_or_none (headers : List String)
    (rows : List (List String)) (fields : List PacketField)
    (hok : _get_fields_csv_file headers rows = Except.ok fields) :
    ("bit_offset" ∈ headers →
      ∀ (i : Nat) (hi : i < rows.length) (hf : i < fields.length),
        ∃ m : Int,
          pyInt? (rowGet headers (rows.get ⟨i, hi⟩) "bit_offset") = Except.ok m ∧
          (fields.get ⟨i, hf⟩).bit_offset = some m) ∧
    ("bit_offset" ∉ headers →
      ∀ f ∈ fields, f.bit_offset = none) := by
  have hrows : fieldsFromRows headers rows = Except.ok fields := by
    rw [_get_fields_csv_file] at hok
    split at hok
    · exact hok
    · exact Except.noConfusion hok
  constructor
  · intro hc i hi hf
    exact (fieldFromRow_ok_offset headers _ _
      (fieldsFromRows_get headers rows fields hrows i hi hf)).1
      ((contains_true_iff headers "bit_offset").mpr hc)
  · intro hc f hf
    rcases fieldsFromRows_mem headers rows fields hrows f hf with ⟨row, _, hrow⟩
    refine (fieldFromRow_ok_offset headers row f hrow).2 ?_
    rcases hcb : headers.contains "bit_offset" with _ | _
    · rfl
    · exact absurd ((contains_true_iff headers "bit_offset").mp hcb) hc

/-- Witness for C5 at concrete inputs: a four-column file yields offsets from
the rows, and the theorem's conclusion holds for its output. -/
theorem C5_witness :
    _get_fields_csv_file ["name", "data_type", "bit_length", "bit_offset"]
        [["a", "uint", "3", "0"], ["b", "uint", "5", "3"]] =
      Except.ok [⟨"a", "uint", 3, some 0, "big"⟩, ⟨"b", "uint", 5, some 3, "big"⟩] ∧
    (("bit_offset" ∈ ["name", "data_type", "bit_length", "bit_offset"] →
      ∀ (i : Nat)
        (hi : i < ([["a", "uint", "3", "0"], ["b", "uint", "5", "3"]] :
          List (List String)).length)
        (hf : i < ([⟨"a", "uint", 3, some 0, "big"⟩,
          ⟨"b", "uint", 5, some 3, "big"⟩] : List PacketField).length),
        ∃ m : Int,
          pyInt? (rowGet ["name", "data_type", "bit_length", "bit_offset"]
            (([["a", "uint", "3", "0"], ["b", "uint", "5", "3"]] :
              List (List String)).get ⟨i, hi⟩) "bit_offset") = Except.ok m ∧
          (([⟨"a", "uint", 3, some 0, "big"⟩, ⟨"b", "uint", 5, some 3, "big"⟩] :
            List PacketField).get ⟨i, hf⟩).bit_offset = some m) ∧
    ("bit_offset" ∉ ["name", "data_type", "bit_length", "bit_offset"] →
      ∀ f ∈ ([⟨"a", "uint", 3, some 0, "big"⟩,
        ⟨"b", "uint", 5, some 3, "big"⟩] : List PacketField),
        f.bit_offset = none)) :=
  ⟨by decide, C5_bit_offsets_all_or_none _ _ _ (by decide)⟩

/-- C6: a CSV whose header row misses any of name, data_type, bit_length is
rejected with an error, no field being produced; with all three present, an
accepted file yields exactly one field per row, built from that row, in row
order. -/
theorem C6_required_columns (headers : List String)
    (rows : List (List String)) :
    (("name" ∉ headers ∨ "data_type" ∉ headers ∨ "bit_length" ∉ headers) →
      _get_fields_csv_file headers rows =
        Except.error "Minimum required columns are ['name', 'data_type', 'bit_length'].") ∧
    (∀ fields, _get_fields_csv_file headers rows = Except.ok fields →
      ("name" ∈ headers ∧ "data_type" ∈ headers ∧ "bit_length" ∈ headers) ∧
      fields.length = rows.length ∧
      ∀ (i : Nat) (hi : i < rows.length) (hf : i < fields.length),
        fieldFromRow headers (rows.get ⟨i, hi⟩) = Except.ok (fields.get ⟨i, hf⟩)) := by
  have hall : (req_columns.all (fun c => headers.contains c) = true) ↔
      ("name" ∈ headers ∧ "data_type" ∈ headers ∧ "bit_length" ∈ headers) := by
    simp [req_columns]
  constructor
  · intro hmiss
    rw [_get_fields_csv_file, if_neg]
    intro hc
    rcases hall.mp hc with ⟨h1, h2, h3⟩
    rcases hmiss with h | h | h <;> exact absurd (by assumption) h
  · intro fields hok
    have hrows : req_columns.all (fun c => headers.contains c) = true ∧
        fieldsFromRows headers rows = Except.ok fields := by
      rw [_get_fields_csv_file] at hok
      split at hok
      · exact ⟨by assumption, hok⟩
      · exact Except.noConfusion hok
    exact ⟨hall.mp hrows.1, fieldsFromRows_length headers rows fields hrows.2,
      fieldsFromRows_get headers rows fields hrows.2⟩

/-- Witness for C6 at concrete inputs: a header row without bit_length is
rejected, and a three-column file is read row by row. -/
theorem C6_witness :
    ("bit_length" ∉ (["name", "data_type"] : List String)) ∧
    _get_fields_csv_file ["name", "data_type"] [["a", "uint"]] =
      Except.error "Minimum required columns are ['name', 'data_type', 'bit_length']." ∧
    (("name" ∈ (["name", "data_type", "bit_length"] : List String) ∧
      "data_type" ∈ (["name", "data_type", "bit_length"] : List String) ∧
      "bit_length" ∈ (["name", "data_type", "bit_length"] : List String)) ∧
     ([⟨"a", "uint", 3, none, "big"⟩] : List PacketField).length =
       ([["a", "uint", "3"]] : List (List String)).length ∧
     ∀ (i : Nat) (hi : i < ([["a", "uint", "3"]] : List (List String)).length)
       (hf : i < ([⟨"a", "uint", 3, none, "big"⟩] : List PacketField).length),
       fieldFromRow ["name", "data_type", "bit_length"]
           (([["a", "uint", "3"]] : List (List String)).get ⟨i, hi⟩) =
         Except.ok (([⟨"a", "uint", 3, none, "big"⟩] :
           List PacketField).get ⟨i, hf⟩)) :=
  ⟨by decide,
   (C6_required_columns ["name", "data_type"] [["a", "uint"]]).1
     (Or.inr (Or.inr (by decide))),
   (C6_required_columns ["name", "data_type", "bit_length"]
     [["a", "uint", "3"]]).2 _ (by decide)⟩

/-- Sample field used by concrete witnesses. -/
def sampleFieldA : PacketField := ⟨"A", "uint", 8, none, "big"⟩

/-- Second sample field used by concrete witnesses. -/
def sampleFieldB : PacketField := ⟨"B", "uint", 4, none, "big"⟩

/-- Concrete one-object store for the C7 witness: object 0 holds one field. -/
def storeW : PyListStore := ⟨fun i => if i = 0 then [sampleFieldA] else [], 1⟩

/-- C7: constructing a FixedLength copies the caller's list, so the instance
refers to a fresh object; afterwards mutating the caller's list never changes
what the instance decodes with, and neither construction nor load ever
mutates the caller's list object. -/
theorem C7_init_copies_caller_list (s : PyListStore) (fid : Nat)
    (h : fid < s.next) (xs : List PacketField) (hdr : Bool) :
    (FixedLength.initRef s fid).2.fieldsRef ≠ fid ∧
    (FixedLength.initRef s fid).1.contents fid = s.contents fid ∧
    ((FixedLength.initRef s fid).1.mutate fid xs).contents
        (FixedLength.initRef s fid).2.fieldsRef = s.contents fid ∧
    (FixedLength.loadRef ((FixedLength.initRef s fid).1.mutate fid xs)
        (FixedLength.initRef s fid).2 hdr).2.2 =
      (if hdr then primaryHeaderFields ++ s.contents fid else s.contents fid) ∧
    (FixedLength.loadRef ((FixedLength.initRef s fid).1.mutate fid xs)
        (FixedLength.initRef s fid).2 hdr).1.contents fid = xs := by
  have h1 : fid ≠ s.next := Nat.ne_of_lt h
  have h2 : s.next ≠ fid := Ne.symm h1
  have h3 : fid ≠ s.next + 1 := by omega
  cases hdr <;>
    simp [FixedLength.initRef, FixedLength.loadRef, PyListStore.alloc,
      PyListStore.mutate, h1, h2, h3]

/-- Witness for C7 on a concrete store: the instance built from object 0
keeps decoding the original one-field list even after the caller's object is
overwritten, and load leaves the caller's object alone. -/
theorem C7_witness :
    0 < storeW.next ∧
    ((FixedLength.initRef storeW 0).2.fieldsRef ≠ 0 ∧
     (FixedLength.initRef storeW 0).1.contents 0 = storeW.contents 0 ∧
     ((FixedLength.initRef storeW 0).1.mutate 0 [sampleFieldB]).contents
         (FixedLength.initRef storeW 0).2.fieldsRef = storeW.contents 0 ∧
     (FixedLength.loadRef
         ((FixedLength.initRef storeW 0).1.mutate 0 [sampleFieldB])
         (FixedLength.initRef storeW 0).2 true).2.2 =
       (if true then primaryHeaderFields ++ storeW.contents 0
        else storeW.contents 0) ∧
     (FixedLength.loadRef
         ((FixedLength.initRef storeW 0).1.mutate 0 [sampleFieldB])
         (FixedLength.initRef storeW 0).2 true).1.contents 0 = [sampleFieldB]) :=
  ⟨by decide, C7_init_copies_caller_list storeW 0 (by decide) [sampleFieldB] true⟩

/-- C8 is refuted by the code: bit_offset is only type-checked, never
sign-checked, so a construction supplying a negative bit_offset returns
normally with the negative offset stored. -/
theorem C8_counterexample :
    PacketField.init "x" "uint" 1 (some (-5)) "big" =
      Except.ok ⟨"x", "uint", 1, some (-5), "big"⟩ :=
  rfl

/-- C8 amended: a successfully constructed PacketField has a bit_offset that
is either absent or exactly the integer supplied, with no sign restriction;
in particular negative offsets are accepted and stored. -/
theorem C8_amended_offset_stored_verbatim (n dt : String) (bl : Int)
    (bo : Option Int) (ord : String) (f : PacketField)
    (h : PacketField.init n dt bl bo ord = Except.ok f) :
    f.bit_offset = bo := by
  rcases (PacketField.init_ok_iff n dt bl bo ord f).mp h with ⟨_, _, rfl⟩
  rfl

/-- Witness for the amended C8: a field constructed with offset -9 stores
offset -9. -/
theorem C8_amended_witness :
    PacketField.init "q" "int" 2 (some (-9)) "little" =
      Except.ok ⟨"q", "int", 2, some (-9), "little"⟩ ∧
    (⟨"q", "int", 2, some (-9), "little"⟩ : PacketField).bit_offset =
      some (-9) :=
  ⟨rfl, C8_amended_offset_stored_verbatim "q" "int" 2 (some (-9)) "little" _ rfl⟩

/-- C9: from_file raises for every path whose splitext extension differs from
".csv"; an extension equal to ".csv" forces the path to end in ".csv", and a
normal return is only possible when the extension is exactly ".csv". -/
theorem C9_from_file_requires_csv (file : List Char) (headers : List String)
    (rows : List (List String)) :
    ((splitext file).2 ≠ ".csv".data →
      FixedLength.from_file file headers rows =
        Except.error "File type not supported.") ∧
    ((splitext file).2 = ".csv".data → ".csv".data <:+ file) ∧
    (∀ inst, FixedLength.from_file file headers rows = Except.ok inst →
      (splitext file).2 = ".csv".data) := by
  refine ⟨fun hne => ?_, fun he => he ▸ splitext_snd_suffix file,
    fun inst hok => ?_⟩
  · rw [FixedLength.from_file, if_neg hne]
  · by_contra hne
    rw [FixedLength.from_file, if_neg hne] at hok
    exact Except.noConfusion hok

/-- Witness for C9: a .txt path is rejected, and a .csv path's extension is
".csv", which is a suffix of the path. -/
theorem C9_witness :
    ((splitext "pkt.txt".data).2 ≠ ".csv".data ∧
      FixedLength.from_file "pkt.txt".data
          ["name", "data_type", "bit_length"] [] =
        Except.error "File type not supported.") ∧
    ((splitext "pkt.csv".data).2 = ".csv".data ∧
      ".csv".data <:+ "pkt.csv".data) :=
  ⟨⟨by decide,
    (C9_from_file_requires_csv "pkt.txt".data
      ["name", "data_type", "bit_length"] []).1 (by decide)⟩,
   ⟨by decide, (C9_from_file_requires_csv "pkt.csv".data [] []).2.1 (by decide)⟩⟩

/-- C10: iterating a constructed PacketField yields exactly five key-value
pairs, in the fixed order name, dataType, bitLength, bitOffset, byteOrder,
with the values supplied at construction. -/
theorem C10_iter_yields_five_pairs (n dt : String) (bl : Int)
    (bo : Option Int) (ord : String) (f : PacketField)
    (h : PacketField.init n dt bl bo ord = Except.ok f) :
    f.iterPairs =
      [("name", PyVal.pyStr n), ("dataType", PyVal.pyStr dt),
       ("bitLength", PyVal.pyInt bl),
       ("bitOffset", match bo with
                     | some m => PyVal.pyInt m
                     | none => PyVal.pyNone),
       ("byteOrder", PyVal.pyStr ord)] ∧
    f.iterPairs.length = 5 := by
  rcases (PacketField.init_ok_iff n dt bl bo ord f).mp h with ⟨_, _, rfl⟩
  refine ⟨?_, rfl⟩
  cases bo <;> rfl

/-- Witness for C10 at a concrete construction. -/
theorem C10_witness :
    PacketField.init "temp" "uint" 12 (some 48) "big" =
      Except.ok ⟨"temp", "uint", 12, some 48, "big"⟩ ∧
    ((⟨"temp", "uint", 12, some 48, "big"⟩ : PacketField).iterPairs =
      [("name", PyVal.pyStr "temp"), ("dataType", PyVal.pyStr "uint"),
       ("bitLength", PyVal.pyInt 12), ("bitOffset", PyVal.pyInt 48),
       ("byteOrder", PyVal.pyStr "big")] ∧
     (⟨"temp", "uint", 12, some 48, "big"⟩ : PacketField).iterPairs.length = 5) :=
  ⟨rfl, C10_iter_yields_five_pairs "temp" "uint" 12 (some 48) "big" _ rfl⟩

end Ccsdspy
